import Mathlib

/-!
Verification development for the Askdemia chatbot backend
(`src/backend.py`).  The file shallowly embeds the intent-routing and
task-dispatch pipeline: the static agent profiles, the keyword
classifier inside the `/chat` endpoint, task construction, dispatch to
the external reasoning backend (modelled as an oracle parameter), and
the MongoDB-backed conversation log (modelled as an ordered list of
key/value documents).
-/

namespace Askdemia

/-- Static configuration fields of a crewai `Agent` as defined in
`backend.py` lines 47-97.  The `llm`, `memory` and `verbose` arguments
bind the external reasoning backend and logging; they carry no routing
data and are omitted. -/
structure Agent where
  name : String
  role : String
  goal : String
  backstory : String
deriving DecidableEq

/-- `chatbot_agent` (backend.py lines 47-55). -/
def chatbot_agent : Agent :=
  { name := "Study Assistant"
    role := "Conversational AI"
    goal := "Assist students with study planning, scheduling, and stress management."
    backstory := "Once a virtual assistant designed for productivity hacks, the Study Assistant evolved into a deeply empathetic and organized AI, tailored to support students in creating effective study routines. With experience in balancing workload, time management, and well-being, this assistant is your go-to guide for achieving academic success with a clear plan." }

/-- `task_manager` (backend.py lines 57-63). -/
def task_manager : Agent :=
  { name := "Task Manager"
    role := "Task & Assignment Tracker"
    goal := "Monitor assignments, deadlines, and tasks."
    backstory := "Built as a digital academic planner, the Task Manager is laser-focused on deadlines, due dates, and deliverables. With a sharp eye for detail and a structured mindset, it keeps students updated on assignments, ensures nothing is forgotten, and promotes timely submissions through gentle reminders and progress tracking." }

/-- `stress_predictor` (backend.py lines 65-71). -/
def stress_predictor : Agent :=
  { name := "Stress Predictor"
    role := "Workload & Stress Analyzer"
    goal := "Analyze student workload and predict stress levels."
    backstory := "Developed from research into student mental health, the Stress Predictor is trained to identify signs of academic burnout, overload, and imbalance. It analyzes study patterns, workload, and emotional cues to offer actionable feedback and suggestions that promote mental wellness and productivity harmony." }

/-- `adaptive_scheduler` (backend.py lines 73-79); defined but never
selected by the classifier. -/
def adaptive_scheduler : Agent :=
  { name := "Adaptive Scheduler"
    role := "Smart Study Planner"
    goal := "Modify study plans based on workload and stress levels."
    backstory := "Created as a dynamic planning engine, the Adaptive Scheduler learns from your performance and stress signals to update your study timetable in real time. It’s like having a personal assistant who not only plans but also adapts to your needs, ensuring you\x27re always productive without being overwhelmed." }

/-- `teacher_agent` (backend.py lines 81-88). -/
def teacher_agent : Agent :=
  { name := "Teacher Bot"
    role := "Academic Concept Explainer"
    goal := "Explain complex concepts in simple terms."
    backstory := "Inspired by the world\x27s best educators, Teacher Bot is a patient and knowledgeable AI tutor designed to break down complex concepts into simple, digestible explanations. Whether it’s advanced math or abstract theory, it teaches in a way that makes learning approachable and enjoyable." }

/-- `motivator_agent` (backend.py lines 90-97). -/
def motivator_agent : Agent :=
  { name := "Motivator"
    role := "Positive Reinforcement Bot"
    goal := "Encourage and motivate students with uplifting responses."
    backstory := "Cheerful, energetic, and always optimistic, the Motivator was created to lift spirits and restore focus during tough study days. Drawing from psychology and positive reinforcement techniques, it delivers encouragement, affirmations, and pep talks to keep students moving forward with confidence." }

/-- The `ChatRequest` pydantic model (backend.py lines 100-102). -/
structure ChatRequest where
  user_id : String
  message : String
deriving DecidableEq

/-- A crewai `Task` as constructed at backend.py line 164:
`Task(description=description, agent=agent, expected_output=expected_output)`. -/
structure Task where
  description : String
  agent : Agent
  expected_output : String
deriving DecidableEq

/-- `needle` is an initial segment of `hay` (character lists). -/
def startsWithChars : List Char → List Char → Bool
  | [], _ => true
  | _ :: _, [] => false
  | c :: cs, d :: ds => c == d && startsWithChars cs ds

/-- Contiguous-substring search on character lists. -/
def hasSub (needle : List Char) : List Char → Bool
  | [] => needle.isEmpty
  | d :: ds => startsWithChars needle (d :: ds) || hasSub needle ds

/-- Python's substring containment `keyword in user_input`. -/
def pyIn (keyword : String) (hay : List Char) : Bool :=
  hasSub keyword.toList hay

/-- Python's `str.lower()` on the character level (the keywords and all
routing-relevant text are ASCII). -/
def pyLower (s : String) : List Char :=
  s.toList.map Char.toLower

/-- The classification-and-task-construction part of the `/chat` endpoint
(backend.py lines 130-164): `user_input = request.message.lower()`, then a
fixed if/elif chain over keyword lists, each branch fixing the agent, an
instruction template around the ORIGINAL (un-lowered) message, and a fixed
expected output; the `else` branch is the fallback. -/
def classifyAndBuild (message : String) : Task :=
  let user_input := pyLower message
  if ["schedule", "plan", "study plan"].any (fun keyword => pyIn keyword user_input) then
    { description := "Create a study schedule based on this request: " ++ message
      agent := chatbot_agent
      expected_output := "A well-structured study plan." }
  else if ["assignment", "deadline", "due", "task"].any (fun keyword => pyIn keyword user_input) then
    { description := "Check for pending assignments based on this request: " ++ message
      agent := task_manager
      expected_output := "A list of pending assignments." }
  else if ["stress", "overwork", "burnout", "overwhelm"].any (fun keyword => pyIn keyword user_input) then
    { description := "Analyze workload and predict stress levels based on this request: " ++ message
      agent := stress_predictor
      expected_output := "A stress level assessment." }
  else if ["explain", "concept", "definition", "theory", "understand"].any (fun keyword => pyIn keyword user_input) then
    { description := "Explain this academic concept: " ++ message
      agent := teacher_agent
      expected_output := "A clear and concise explanation of the topic." }
  else if ["motivate", "encourage", "feeling low", "positive", "inspire"].any (fun keyword => pyIn keyword user_input) then
    { description := "Give an uplifting and positive message for this request: " ++ message
      agent := motivator_agent
      expected_output := "A motivating and cheerful response." }
  else
    { description := "Respond to this student query: " ++ message
      agent := chatbot_agent
      expected_output := "A helpful response." }

/-- A MongoDB document: an ordered list of string key/value pairs.  The
auto-generated `_id` never reaches any observable output (the history
endpoint projects it away with `{"_id": 0}` and the other endpoints filter
on `user_id` alone), so documents are modelled without it. -/
abbrev Doc := List (String × String)

/-- The user-role document inserted at backend.py line 173. -/
def userDoc (uid text : String) : Doc :=
  [("user_id", uid), ("role", "user"), ("text", text)]

/-- The bot-role document inserted at backend.py line 174. -/
def botDoc (uid text : String) : Doc :=
  [("user_id", uid), ("role", "bot"), ("text", text)]

/-- Value of the `user_id` field of a document, if present. -/
def docUserId (d : Doc) : Option String :=
  (d.find? (fun kv => kv.1 == "user_id")).map (fun kv => kv.2)

/-- The Mongo filter `{"user_id": user_id}` used by `find`/`delete_many`. -/
def matchesUser (uid : String) (d : Doc) : Bool :=
  docUserId d == some uid

/-- The field names of a document, in order. -/
def docKeys (d : Doc) : List String :=
  d.map (fun kv => kv.1)

/-- The projection `{"_id": 0}` applied by the history endpoint
(backend.py line 185): every field except `_id` is kept. -/
def projectNoId (d : Doc) : Doc :=
  d.filter (fun kv => kv.1 != "_id")

/-- The `messages_collection` state: documents in insertion order. -/
abbrev Store := List Doc

/-- `DELETE /chat/history/{user_id}` (backend.py lines 117-126):
`delete_many({"user_id": user_id})`.  Returns the response payload
(status message and `deleted_count`) and the post-state. -/
def delete_chat_history (store : Store) (user_id : String) :
    (String × Nat) × Store :=
  (("Chat history deleted successfully.",
    (store.filter (matchesUser user_id)).length),
   store.filter (fun d => !matchesUser user_id d))

/-- `GET /chat/history/{user_id}` (backend.py lines 182-188):
`find({"user_id": user_id}, {"_id": 0})`, returned as
`{user_id, messages}`. -/
def get_chat_history (store : Store) (user_id : String) :
    String × List Doc :=
  (user_id, (store.filter (matchesUser user_id)).map projectNoId)

/-- `POST /chat` (backend.py lines 129-179).  The external reasoning
backend (`crew.kickoff_async()` followed by `.raw`) is modelled as an
oracle from the constructed task to either raw response text or an
exception detail.  On success the exchange is persisted with one
`insert_many` of the user and bot documents and the raw text is
returned; on failure nothing is persisted and the exception detail is
surfaced as an HTTP 500 (`Except.error`). -/
def chat (store : Store) (request : ChatRequest)
    (backend : Task → Except String String) :
    Except String String × Store :=
  let current_task := classifyAndBuild request.message
  match backend current_task with
  | Except.error e => (Except.error e, store)
  | Except.ok bot_response =>
      (Except.ok bot_response,
       store ++ [userDoc request.user_id request.message,
                 botDoc request.user_id bot_response])

/-! ### Spec-side reformulation of the classifier

The spec describes the classifier as: evaluate the five keyword
categories in a fixed priority order, the first match wins, otherwise
fall back.  `firstCategory`/`branchTask` formalise that description; the
refinement lemma `classify_spec_eq` below shows the source's if/elif
chain computes exactly this. -/

/-- The five keyword categories, in the spec's priority order:
study/plan, assignment/deadline, stress/burnout, concept/explain,
motivate/encourage. -/
def keyword_lists : List (List String) :=
  [["schedule", "plan", "study plan"],
   ["assignment", "deadline", "due", "task"],
   ["stress", "overwork", "burnout", "overwhelm"],
   ["explain", "concept", "definition", "theory", "understand"],
   ["motivate", "encourage", "feeling low", "positive", "inspire"]]

/-- Category `i` matches `m` if some keyword of category `i` occurs as a
substring of the lower-cased message. -/
def categoryMatches (m : String) (i : Nat) : Bool :=
  (keyword_lists.getD i []).any (fun keyword => pyIn keyword (pyLower m))

/-- The first matching category in priority order, if any. -/
def firstCategory (m : String) : Option Nat :=
  [0, 1, 2, 3, 4].find? (categoryMatches m)

/-- The task each branch of the if/elif chain constructs: category `i`
maps to its agent, instruction template around the original message, and
fixed expected output; `none` (and the unreachable `some i`, `i ≥ 5`)
maps to the fallback branch. -/
def branchTask (m : String) : Option Nat → Task
  | some 0 => { description := "Create a study schedule based on this request: " ++ m
                agent := chatbot_agent
                expected_output := "A well-structured study plan." }
  | some 1 => { description := "Check for pending assignments based on this request: " ++ m
                agent := task_manager
                expected_output := "A list of pending assignments." }
  | some 2 => { description := "Analyze workload and predict stress levels based on this request: " ++ m
                agent := stress_predictor
                expected_output := "A stress level assessment." }
  | some 3 => { description := "Explain this academic concept: " ++ m
                agent := teacher_agent
                expected_output := "A clear and concise explanation of the topic." }
  | some 4 => { description := "Give an uplifting and positive message for this request: " ++ m
                agent := motivator_agent
                expected_output := "A motivating and cheerful response." }
  | _ => { description := "Respond to this student query: " ++ m
           agent := chatbot_agent
           expected_output := "A helpful response." }

/-- The six instruction templates of the if/elif chain, each paired with
its fixed expected-output descriptor. -/
def instruction_templates : List (String × String) :=
  [("Create a study schedule based on this request: ", "A well-structured study plan."),
   ("Check for pending assignments based on this request: ", "A list of pending assignments."),
   ("Analyze workload and predict stress levels based on this request: ", "A stress level assessment."),
   ("Explain this academic concept: ", "A clear and concise explanation of the topic."),
   ("Give an uplifting and positive message for this request: ", "A motivating and cheerful response."),
   ("Respond to this student query: ", "A helpful response.")]

/-- Master refinement lemma: the source's if/elif chain equals the
spec-side first-match-in-priority-order classifier. -/
theorem classify_spec_eq (m : String) :
    classifyAndBuild m = branchTask m (firstCategory m) := by
  have e0 : categoryMatches m 0 = (["schedule", "plan", "study plan"].any (fun keyword => pyIn keyword (pyLower m))) := rfl
  have e1 : categoryMatches m 1 = (["assignment", "deadline", "due", "task"].any (fun keyword => pyIn keyword (pyLower m))) := rfl
  have e2 : categoryMatches m 2 = (["stress", "overwork", "burnout", "overwhelm"].any (fun keyword => pyIn keyword (pyLower m))) := rfl
  have e3 : categoryMatches m 3 = (["explain", "concept", "definition", "theory", "understand"].any (fun keyword => pyIn keyword (pyLower m))) := rfl
  have e4 : categoryMatches m 4 = (["motivate", "encourage", "feeling low", "positive", "inspire"].any (fun keyword => pyIn keyword (pyLower m))) := rfl
  simp only [classifyAndBuild]
  rw [← e0, ← e1, ← e2, ← e3, ← e4]
  by_cases h0 : categoryMatches m 0 = true
  · simp [h0, firstCategory, branchTask]
  · by_cases h1 : categoryMatches m 1 = true
    · simp [h0, h1, firstCategory, branchTask]
    · by_cases h2 : categoryMatches m 2 = true
      · simp [h0, h1, h2, firstCategory, branchTask]
      · by_cases h3 : categoryMatches m 3 = true
        · simp [h0, h1, h2, h3, firstCategory, branchTask]
        · by_cases h4 : categoryMatches m 4 = true
          · simp [h0, h1, h2, h3, h4, firstCategory, branchTask]
          · simp [h0, h1, h2, h3, h4, firstCategory, branchTask]

/-! ### Store helper lemmas -/

/-- The user document of an exchange for `uid` satisfies the Mongo
filter `{"user_id": uid}`. -/
theorem matchesUser_userDoc (uid t : String) :
    matchesUser uid (userDoc uid t) = true := by
  simp [matchesUser, userDoc, docUserId]

/-- The bot document of an exchange for `uid` satisfies the Mongo
filter `{"user_id": uid}`. -/
theorem matchesUser_botDoc (uid t : String) :
    matchesUser uid (botDoc uid t) = true := by
  simp [matchesUser, botDoc, docUserId]

/-- The `{"_id": 0}` projection leaves a user document unchanged. -/
theorem projectNoId_userDoc (uid t : String) :
    projectNoId (userDoc uid t) = userDoc uid t := rfl

/-- The `{"_id": 0}` projection leaves a bot document unchanged. -/
theorem projectNoId_botDoc (uid t : String) :
    projectNoId (botDoc uid t) = botDoc uid t := rfl

/-! ### Claim theorems -/

set_option maxRecDepth 100000

/-- C1: intent categories are evaluated in the fixed priority order
study/plan, assignment/deadline, stress/burnout, concept/explain,
motivate/encourage; the first category with a keyword occurring as a
substring of the lower-cased message wins (fallback otherwise); in
particular "plan my deadline", which contains both a study-plan keyword
and an assignment keyword, resolves to the study-plan handler. -/
theorem c1_priority_order_first_match :
    (∀ m : String, classifyAndBuild m = branchTask m (firstCategory m)) ∧
    firstCategory "plan my deadline" = some 0 ∧
    categoryMatches "plan my deadline" 1 = true ∧
    (classifyAndBuild "plan my deadline").agent = chatbot_agent ∧
    (classifyAndBuild "plan my deadline").description =
      "Create a study schedule based on this request: plan my deadline" :=
  ⟨classify_spec_eq, by decide, by decide, by decide, by decide⟩

/-- C4: classification is total (the embedding returns a `Task` for every
message, with no error path): whenever no category keyword occurs in the
lower-cased message, the fallback/general branch is selected, and the
empty string in particular classifies to the fallback. -/
theorem c4_no_match_fallback :
    (∀ m : String, (∀ i, i < 5 → categoryMatches m i = false) →
      classifyAndBuild m =
        { description := "Respond to this student query: " ++ m
          agent := chatbot_agent
          expected_output := "A helpful response." }) ∧
    classifyAndBuild "" =
      { description := "Respond to this student query: "
        agent := chatbot_agent
        expected_output := "A helpful response." } := by
  constructor
  · intro m h
    have hn : firstCategory m = none := by
      simp [firstCategory, h 0 (by omega), h 1 (by omega), h 2 (by omega),
            h 3 (by omega), h 4 (by omega)]
    rw [classify_spec_eq m, hn]
    rfl
  · decide

/-- Witness for C4: "hello there" matches no category and classifies to
the fallback branch. -/
theorem c4_no_match_fallback_witness :
    classifyAndBuild "hello there" =
      { description := "Respond to this student query: hello there"
        agent := chatbot_agent
        expected_output := "A helpful response." } :=
  c4_no_match_fallback.1 "hello there" (by decide)

/-- C5 counterexample: the claim says the default fallback is a profile
distinct from the general assistant, but on an unmatched message the
code's fallback branch selects the very same agent record
(`chatbot_agent`) as the study-plan/general branch. -/
theorem c5_counterexample_fallback_not_distinct :
    firstCategory "hello there" = none ∧
    (classifyAndBuild "hello there").agent = chatbot_agent ∧
    (classifyAndBuild "plan a schedule").agent = chatbot_agent := by
  refine ⟨by decide, by decide, by decide⟩

/-- C5 (amended): the code defines six pairwise-distinct fixed agent
profiles (Study Assistant, Task Manager, Stress Predictor, Adaptive
Scheduler, Teacher Bot, Motivator); every classification result is one
of five of them (the Adaptive Scheduler is never selected), and the
fallback branch reuses the general Study Assistant profile rather than a
distinct sixth fallback profile. -/
theorem c5_amended_six_profiles :
    List.Nodup [chatbot_agent, task_manager, stress_predictor,
                adaptive_scheduler, teacher_agent, motivator_agent] ∧
    (∀ m : String, (classifyAndBuild m).agent ∈
      [chatbot_agent, task_manager, stress_predictor, teacher_agent, motivator_agent]) ∧
    (∀ m : String, firstCategory m = none →
      (classifyAndBuild m).agent = chatbot_agent) := by
  refine ⟨by decide, fun m => ?_, fun m h => by rw [classify_spec_eq m, h]; rfl⟩
  rw [classify_spec_eq m]
  rcases firstCategory m with _ | i
  · simp [branchTask]
  · rcases i with _ | _ | _ | _ | _ | j <;> simp [branchTask]

/-- Witness for C5 (amended): the unmatched message "hello there" is
handled by the general Study Assistant profile. -/
theorem c5_amended_six_profiles_witness :
    (classifyAndBuild "hello there").agent = chatbot_agent :=
  c5_amended_six_profiles.2.2 "hello there" (by decide)

/-- C2: on a successful dispatch, exactly two documents are appended as a
unit at the end of the user's log — first the user document with the
original message, then the bot document with the dispatched response —
and the history grows by exactly two. -/
theorem c2_exchange_appends_two_messages :
    ∀ (store : Store) (r : ChatRequest) (backend : Task → Except String String)
      (raw : String),
      backend (classifyAndBuild r.message) = Except.ok raw →
      (chat store r backend).1 = Except.ok raw ∧
      (get_chat_history (chat store r backend).2 r.user_id).2 =
        (get_chat_history store r.user_id).2 ++
          [userDoc r.user_id r.message, botDoc r.user_id raw] ∧
      (get_chat_history (chat store r backend).2 r.user_id).2.length =
        (get_chat_history store r.user_id).2.length + 2 := by
  intro store r backend raw h
  refine ⟨by simp only [chat, h], ?_, ?_⟩ <;>
    simp [chat, h, get_chat_history, matchesUser_userDoc, matchesUser_botDoc,
          projectNoId_userDoc, projectNoId_botDoc]

/-- Witness for C2: a concrete successful exchange appends exactly the
user and bot documents at the end of an initially empty history. -/
theorem c2_exchange_appends_two_messages_witness :
    (get_chat_history
        (chat [] ⟨"u1", "I feel stressed about exams"⟩
          (fun _ => Except.ok "Take a deep breath.")).2 "u1").2 =
      (get_chat_history ([] : Store) "u1").2 ++
        [userDoc "u1" "I feel stressed about exams",
         botDoc "u1" "Take a deep breath."] :=
  (c2_exchange_appends_two_messages [] ⟨"u1", "I feel stressed about exams"⟩
    (fun _ => Except.ok "Take a deep breath.") "Take a deep breath." rfl).2.1

/-- C3: if the reasoning-backend dispatch fails, nothing is persisted —
the store and every user's history are unchanged — and the exception
detail is surfaced as a failure instead of a response. -/
theorem c3_dispatch_failure_no_persistence :
    ∀ (store : Store) (r : ChatRequest) (backend : Task → Except String String)
      (e : String),
      backend (classifyAndBuild r.message) = Except.error e →
      (chat store r backend).1 = Except.error e ∧
      (chat store r backend).2 = store ∧
      ∀ uid : String,
        get_chat_history (chat store r backend).2 uid = get_chat_history store uid := by
  intro store r backend e h
  simp [chat, h]

/-- Witness for C3: a concrete failing dispatch leaves a non-empty store
untouched and surfaces the error detail. -/
theorem c3_dispatch_failure_no_persistence_witness :
    (chat [userDoc "u1" "hi"] ⟨"u1", "plan my week"⟩
        (fun _ => Except.error "backend down")).1 = Except.error "backend down" ∧
    (chat [userDoc "u1" "hi"] ⟨"u1", "plan my week"⟩
        (fun _ => Except.error "backend down")).2 = [userDoc "u1" "hi"] :=
  let h := c3_dispatch_failure_no_persistence [userDoc "u1" "hi"]
    ⟨"u1", "plan my week"⟩ (fun _ => Except.error "backend down") "backend down" rfl
  ⟨h.1, h.2.1⟩

/-- C6: clearing deletes every document of that user: the reported
`deleted_count` equals the number of messages the user had, a subsequent
history read returns the empty sequence, clearing again reports zero
(idempotence), and clearing an empty store reports zero without
failing. -/
theorem c6_clear_idempotent :
    ∀ (store : Store) (uid : String),
      (delete_chat_history store uid).1.2 = (get_chat_history store uid).2.length ∧
      (get_chat_history (delete_chat_history store uid).2 uid).2 = [] ∧
      (delete_chat_history (delete_chat_history store uid).2 uid).1.2 = 0 ∧
      (delete_chat_history ([] : Store) uid).1.2 = 0 := by
  intro store uid
  refine ⟨by simp [delete_chat_history, get_chat_history], ?_, ?_, rfl⟩ <;>
    simp [delete_chat_history, get_chat_history, List.filter_filter]

/-- C7 counterexample: the claim says every element returned by the
history endpoint has exactly the fields `role` and `text`, but after one
successful exchange each returned document still carries the `user_id`
field (only `_id` is projected away). -/
theorem c7_counterexample_user_id_field_kept :
    ((get_chat_history
        (chat [] ⟨"u1", "hello there"⟩ (fun _ => Except.ok "Hi!")).2 "u1").2.map docKeys =
      [["user_id", "role", "text"], ["user_id", "role", "text"]]) ∧
    (["user_id", "role", "text"] : List String) ≠ ["role", "text"] := by
  refine ⟨by decide, by decide⟩

/-- C7 (amended): history returns the full persisted log for the user in
insertion order, packaged as `{user_id, messages}`; each element has
exactly the fields `user_id`, `role` and `text` (only the Mongo `_id` is
projected away); an unknown user yields an empty sequence, not an
error. -/
theorem c7_amended_history_shape :
    ∀ (store : Store) (uid : String),
      (get_chat_history store uid).1 = uid ∧
      ((∀ d ∈ store, matchesUser uid d = false) →
        (get_chat_history store uid).2 = []) ∧
      ∀ t : String,
        docKeys (projectNoId (userDoc uid t)) = ["user_id", "role", "text"] ∧
        docKeys (projectNoId (botDoc uid t)) = ["user_id", "role", "text"] := by
  intro store uid
  refine ⟨rfl, fun h => ?_, fun t => ⟨rfl, rfl⟩⟩
  simp only [get_chat_history]
  rw [List.filter_eq_nil_iff.mpr (fun d hd => by simp [h d hd])]
  rfl

/-- Witness for C7 (amended): history for the unknown user "u1" over a
store holding only another user's document is empty. -/
theorem c7_amended_history_shape_witness :
    (get_chat_history [userDoc "u2" "hi"] "u1").2 = [] :=
  (c7_amended_history_shape [userDoc "u2" "hi"] "u1").2.1 (by decide)

/-- C8: for every message, the constructed task embeds the original
message verbatim (original casing) after one of the six fixed
instruction templates, paired with that branch's fixed expected-output
descriptor; e.g. "PLAN My Day" is matched via its lower-casing but
embedded with its original casing. -/
theorem c8_template_embeds_message_verbatim :
    (∀ m : String, ∃ p, p ∈ instruction_templates ∧
      (classifyAndBuild m).description = p.1 ++ m ∧
      (classifyAndBuild m).expected_output = p.2) ∧
    (classifyAndBuild "PLAN My Day").description =
      "Create a study schedule based on this request: PLAN My Day" ∧
    (classifyAndBuild "PLAN My Day").expected_output =
      "A well-structured study plan." := by
  refine ⟨fun m => ?_, by decide, by decide⟩
  rw [classify_spec_eq m]
  rcases firstCategory m with _ | i
  · exact ⟨("Respond to this student query: ", "A helpful response."),
      by decide, rfl, rfl⟩
  · rcases i with _ | _ | _ | _ | _ | j
    · exact ⟨("Create a study schedule based on this request: ",
        "A well-structured study plan."), by decide, rfl, rfl⟩
    · exact ⟨("Check for pending assignments based on this request: ",
        "A list of pending assignments."), by decide, rfl, rfl⟩
    · exact ⟨("Analyze workload and predict stress levels based on this request: ",
        "A stress level assessment."), by decide, rfl, rfl⟩
    · exact ⟨("Explain this academic concept: ",
        "A clear and concise explanation of the topic."), by decide, rfl, rfl⟩
    · exact ⟨("Give an uplifting and positive message for this request: ",
        "A motivating and cheerful response."), by decide, rfl, rfl⟩
    · exact ⟨("Respond to this student query: ", "A helpful response."),
        by decide, rfl, rfl⟩

/-- C9: classification and task construction are pure functions of the
message text alone: two chat requests with the same message but any
user_ids produce the identical task — same agent, same description, same
expected output. -/
theorem c9_task_depends_only_on_message :
    ∀ r1 r2 : ChatRequest, r1.message = r2.message →
      classifyAndBuild r1.message = classifyAndBuild r2.message ∧
      (classifyAndBuild r1.message).agent = (classifyAndBuild r2.message).agent ∧
      (classifyAndBuild r1.message).description =
        (classifyAndBuild r2.message).description ∧
      (classifyAndBuild r1.message).expected_output =
        (classifyAndBuild r2.message).expected_output := by
  intro r1 r2 h
  rw [h]
  exact ⟨rfl, rfl, rfl, rfl⟩

/-- Witness for C9: two requests from different users with the same
message build the identical task. -/
theorem c9_task_depends_only_on_message_witness :
    classifyAndBuild (ChatRequest.mk "alice" "plan my week").message =
      classifyAndBuild (ChatRequest.mk "bob" "plan my week").message :=
  (c9_task_depends_only_on_message
    (ChatRequest.mk "alice" "plan my week") (ChatRequest.mk "bob" "plan my week") rfl).1

/-- C10: the chat operation never validates the backend's output: any
dispatch that completes without raising has its raw text persisted as
the bot document and returned as a success — there is no unusable-output
error path. -/
theorem c10_raw_output_persisted_unvalidated :
    ∀ (store : Store) (r : ChatRequest) (backend : Task → Except String String)
      (raw : String),
      backend (classifyAndBuild r.message) = Except.ok raw →
      (chat store r backend).1 = Except.ok raw ∧
      (chat store r backend).2 =
        store ++ [userDoc r.user_id r.message, botDoc r.user_id raw] := by
  intro store r backend raw h
  simp [chat, h]

/-- Witness for C10: an empty-string backend output is persisted as the
bot document and returned as a success. -/
theorem c10_raw_output_persisted_unvalidated_witness :
    (chat [] ⟨"u1", "explain recursion"⟩ (fun _ => Except.ok "")).1 = Except.ok "" ∧
    (chat [] ⟨"u1", "explain recursion"⟩ (fun _ => Except.ok "")).2 =
      [] ++ [userDoc "u1" "explain recursion", botDoc "u1" ""] :=
  c10_raw_output_persisted_unvalidated [] ⟨"u1", "explain recursion"⟩
    (fun _ => Except.ok "") "" rfl

end Askdemia
